import Mathlib

/-!
Shallow embedding of the RecruitEM Smart Recruitment Dispatcher
(src/orchestrator.py), a multi-agent orchestration pipeline:
status update, router agent, assessment agent / interview agent, output.

Python strings are modelled as Lean `String`; Python string slicing,
lowercasing and the substring operator are modelled character by
character on `String.data` (all the data in the knowledge store is
ASCII, where the two agree). The external text-generation service
(the Anthropic API call inside `generate_prep_tip`) is an external
collaborator: its outcome is passed in as an `Option String` parameter,
`none` standing for any raised exception and `some text` for a reply,
and the configured credential is an `Option String` with Python
truthiness (absent and empty are both falsy). Console printing and
timestamps are side effects outside the embedded logic; the timestamp
written into metadata is passed in as a parameter.
-/

set_option maxRecDepth 8000

namespace RecruitEM

/-- Character-list substring scan: true when `pat` occurs as a contiguous
run inside the second list. Mirrors the Python `in` operator on strings. -/
def containsSub (pat : List Char) : List Char → Bool
  | [] => pat.isEmpty
  | c :: t => pat.isPrefixOf (c :: t) || containsSub pat t

/-- Python `pat in s` on strings. -/
def strContains (s pat : String) : Bool := containsSub pat.data s.data

/-- Python `s.lower()` (per-character, matches CPython on ASCII data). -/
def strLower (s : String) : String := String.mk (s.data.map Char.toLower)

/-- Python `s[:n]` slicing, counting characters. -/
def strTake (s : String) (n : Nat) : String := String.mk (s.data.take n)

/-- Python truthiness of `os.getenv(...)`: `None` and `""` are falsy. -/
def envTruthy : Option String → Bool
  | none => false
  | some s => !(s == "")

/-- A knowledge-store job posting entry (title, description). -/
structure JobPosting where
  title : String
  description : String
deriving DecidableEq

/-- `TEST_LINKS` table from src/orchestrator.py lines 40-46. -/
def TEST_LINKS : List (String × String) :=
  [("Python Developer", "https://assess.example.com/python"),
   ("Data Analyst", "https://assess.example.com/data"),
   ("Frontend Developer", "https://assess.example.com/frontend"),
   ("DevOps Engineer", "https://assess.example.com/devops"),
   ("Product Manager", "https://assess.example.com/product")]

/-- `JOB_DESCRIPTIONS` table from src/orchestrator.py lines 48-65. -/
def JOB_DESCRIPTIONS : List (String × JobPosting) :=
  [("J123", ⟨"Python Developer", "Python Developer role requiring FastAPI, async programming, REST APIs, PostgreSQL, and Docker. Must have 3+ years experience building scalable backend services."⟩),
   ("J456", ⟨"Data Analyst", "Data Analyst role requiring SQL, Tableau, Python for data analysis, statistical modeling, and experience with data warehousing concepts."⟩),
   ("J789", ⟨"Frontend Developer", "Frontend Developer role requiring React, TypeScript, modern CSS frameworks, and experience with responsive design and accessibility standards."⟩),
   ("J101", ⟨"DevOps Engineer", "DevOps Engineer role requiring Kubernetes, CI/CD pipelines, AWS/Azure, Terraform, and strong Linux system administration skills."⟩)]

/-- `INTERVIEW_TIPS_DB` table from src/orchestrator.py lines 67-73,
in declared (insertion) order, which is the iteration order in Python. -/
def INTERVIEW_TIPS_DB : List (String × String) :=
  [("python", "Review async/await patterns and how to handle concurrent requests efficiently."),
   ("fastapi", "Understand dependency injection and how FastAPI uses Pydantic for validation."),
   ("sql", "Practice complex JOIN queries and understand indexing strategies for performance."),
   ("react", "Be ready to explain the virtual DOM, hooks lifecycle, and state management patterns."),
   ("kubernetes", "Know the difference between Deployments, StatefulSets, and DaemonSets.")]

/-- Metadata dict written by the agents: either still the initial empty dict,
or the assessment agent entries, or the interview agent entries. -/
inductive Metadata where
  | empty
  | assessment (test_link timestamp : String)
  | interview (prep_tip timestamp : String)
deriving DecidableEq

/-- `AgentState` TypedDict from src/orchestrator.py lines 77-86. -/
structure AgentState where
  job_id : String
  candidate_name : String
  candidate_email : String
  status : String
  job_title : String
  job_description : String
  output_message : String
  metadata : Metadata
deriving DecidableEq

/-- Tool `get_test_link` (lines 90-102): link for a role, with generic default. -/
def get_test_link (role : String) : String :=
  (TEST_LINKS.lookup role).getD "https://assess.example.com/general"

/-- Tool `rag_search` (lines 104-133): job-id lookup with a 150-character
slice and a literal appended marker, else first tip whose keyword occurs in
the lowercased query, else a fixed no-tips message. -/
def rag_search (query : String) : String :=
  match JOB_DESCRIPTIONS.lookup query with
  | some jd => jd.title ++ ": " ++ strTake jd.description 150 ++ "..."
  | none =>
    match INTERVIEW_TIPS_DB.find? (fun p => strContains (strLower query) p.fst) with
    | some p => p.snd
    | none => "No specific tips found. General advice: Review the job description carefully and prepare examples from your past experience."

/-- Fixed keyword scan order of `generate_prep_tip` (line 174). -/
def keywords : List String := ["python", "sql", "react", "kubernetes", "fastapi"]

/-- Tiers 2 and 3 of `generate_prep_tip` (lines 173-179): first keyword of
the fixed list occurring in the lowercased description selects its corpus
tip (with a fixed message if the corpus had no entry); no match yields the
fixed generic message. -/
def keywordTier (job_description : String) : String :=
  match keywords.find? (fun k => strContains (strLower job_description) k) with
  | some k => (INTERVIEW_TIPS_DB.lookup k).getD "Review the core concepts for this role."
  | none => "Study the job requirements and prepare concrete examples from your experience."

/-- Tier 1 of `generate_prep_tip` (lines 148-171): attempted only when the
caller asked for it and the environment credential is truthy; a successful
reply is stripped; `none` (any exception, or tier not attempted) falls
through. -/
def externalTier (use_claude : Bool) (api_key : Option String) (ext : Option String) : Option String :=
  if use_claude && envTruthy api_key then ext.map String.trim else none

/-- Tool `generate_prep_tip` (lines 135-179): tiered fallback chain. -/
def generate_prep_tip (job_description : String) (use_claude : Bool)
    (api_key : Option String) (ext : Option String) : String :=
  match externalTier use_claude api_key ext with
  | some tip => tip
  | none => keywordTier job_description

/-- `router_agent` (lines 183-208): case-insensitive match on the literal
string, everything else routed to the interview agent. -/
def router_agent (state : AgentState) : String :=
  if strLower state.status = "assessment" then "assessment" else "interview"

/-- Message template of `assessment_agent` (lines 230-241). -/
def assessmentMessage (candidate_name job_title test_link : String) : String :=
  "Hi " ++ candidate_name ++ "!\n\nGreat news! You\x27ve been selected to move forward with the " ++ job_title ++ " position.\n\nNext Step: Please complete your technical assessment at your earliest convenience.\n\n→ Assessment Link: " ++ test_link ++ "\n→ Time Limit: 60 minutes\n→ Tip: Review the job description before starting\n\nBest of luck!\nRecruitEM Team"

/-- `assessment_agent` (lines 210-251); `now` is the timestamp value. -/
def assessment_agent (state : AgentState) (now : String) : AgentState :=
  let test_link := get_test_link state.job_title
  { state with
    output_message := assessmentMessage state.candidate_name state.job_title test_link
    metadata := Metadata.assessment test_link now }

/-- Message template of `interview_agent` (lines 278-293). -/
def interviewMessage (candidate_name job_title prep_tip jd_snippet : String) : String :=
  "Hi " ++ candidate_name ++ "!\n\nCongratulations on reaching the interview stage for " ++ job_title ++ "!\n\n→ Your interview is coming up soon. Here\x27s a personalized tip to help you prepare:\n\n→ Key Focus Area:\n" ++ prep_tip ++ "\n\n→ Role Context:\n" ++ jd_snippet ++ "\n\nRemember: Prepare specific examples from your experience that demonstrate these skills.\n\nYou\x27ve got this!\nRecruitEM Team"

/-- `interview_agent` (lines 253-303); `now` is the timestamp value. -/
def interview_agent (state : AgentState) (use_claude : Bool)
    (api_key ext : Option String) (now : String) : AgentState :=
  let jd_snippet := rag_search state.job_id
  let prep_tip := generate_prep_tip state.job_description use_claude api_key ext
  { state with
    output_message := interviewMessage state.candidate_name state.job_title prep_tip jd_snippet
    metadata := Metadata.interview prep_tip now }

/-- Job resolution step of `orchestrate` (lines 340-347): catalog lookup
with fixed generic defaults for an unknown job id. -/
def resolveJob (job_id : String) : String × String :=
  match JOB_DESCRIPTIONS.lookup job_id with
  | none => ("Software Engineer", "Software engineering role requiring technical expertise.")
  | some job_info => (job_info.title, job_info.description)

/-- Initial `AgentState` built by `orchestrate` (lines 349-358). -/
def initState (candidate_name candidate_email status job_id : String) : AgentState :=
  { job_id := job_id
    candidate_name := candidate_name
    candidate_email := candidate_email
    status := status
    job_title := (resolveJob job_id).fst
    job_description := (resolveJob job_id).snd
    output_message := ""
    metadata := Metadata.empty }

/-- `orchestrate` (lines 307-380): build state, route, delegate, return the
output message. -/
def orchestrate (candidate_name candidate_email status job_id : String)
    (use_claude : Bool) (api_key ext : Option String) (now : String) : String :=
  let state := initState candidate_name candidate_email status job_id
  let next_agent := router_agent state
  let state2 :=
    if next_agent = "assessment" then assessment_agent state now
    else interview_agent state use_claude api_key ext now
  state2.output_message

/-! ### Helper lemmas -/

/-- A substring of the right part of a concatenation is a substring of the
whole concatenation. -/
theorem containsSub_append_right (p xs ys : List Char)
    (h : containsSub p ys = true) : containsSub p (xs ++ ys) = true := by
  induction xs with
  | nil => simpa using h
  | cons c t ih => simp [containsSub, ih]

/-- Taking at least the whole length of a string leaves it unchanged. -/
theorem strTake_of_le (s : String) (n : Nat) (h : s.length ≤ n) :
    strTake s n = s := by
  cases s with
  | mk l => exact congrArg String.mk (List.take_of_length_le (by simpa using h))

/-- The keyword tier either returns the generic message or the corpus value
of some keyword of the fixed scan list. -/
theorem keywordTier_cases (jd : String) :
    keywordTier jd = "Study the job requirements and prepare concrete examples from your experience." ∨
    ∃ k, k ∈ keywords ∧
      keywordTier jd = (INTERVIEW_TIPS_DB.lookup k).getD "Review the core concepts for this role." := by
  unfold keywordTier
  cases hf : keywords.find? (fun k => strContains (strLower jd) k) with
  | none => exact Or.inl rfl
  | some k => exact Or.inr ⟨k, List.mem_of_find?_eq_some hf, rfl⟩

/-! ### Claim C1 -/

/-- Claim C1, counterexample: the J456 catalog description contains both
the word Python and the word SQL; since the keyword tier scans python
before sql, `generate_prep_tip` with the external tier unavailable returns
the python corpus tip, which differs from the sql corpus entry. -/
theorem c1_counterexample :
    INTERVIEW_TIPS_DB.lookup "sql" =
      some "Practice complex JOIN queries and understand indexing strategies for performance." ∧
    generate_prep_tip (resolveJob "J456").snd false none none =
      "Review async/await patterns and how to handle concurrent requests efficiently." ∧
    generate_prep_tip (resolveJob "J456").snd false none none ≠
      "Practice complex JOIN queries and understand indexing strategies for performance." := by
  refine ⟨by decide, by decide, by decide⟩

/-- Claim C1 (amended): for a dispatch of job J456 with no external-generator
credential configured, the tip produced by `generate_prep_tip` equals the tip
corpus entry for the keyword python, the first keyword of the fixed scan
order occurring in the description (which mentions both Python and SQL). -/
theorem c1_tip_for_j456 (uc : Bool) (ext : Option String) :
    generate_prep_tip (resolveJob "J456").snd uc none ext =
      "Review async/await patterns and how to handle concurrent requests efficiently." := by
  have h : externalTier uc none ext = none := by
    simp [externalTier, envTruthy]
  simp only [generate_prep_tip, h]
  decide

/-- Claim C1, witness: the amended statement at a concrete flag and a
concrete external outcome. -/
theorem c1_witness :
    generate_prep_tip (resolveJob "J456").snd true none (some "ignored reply") =
      "Review async/await patterns and how to handle concurrent requests efficiently." :=
  c1_tip_for_j456 true (some "ignored reply")

/-! ### Claim C2 -/

/-- Claim C2, counterexample: the J456 description has 136 characters, not
more than 150, yet `rag_search` still appends the literal marker instead of
returning the description unmodified. -/
theorem c2_counterexample :
    JOB_DESCRIPTIONS.lookup "J456" =
      some ⟨"Data Analyst", "Data Analyst role requiring SQL, Tableau, Python for data analysis, statistical modeling, and experience with data warehousing concepts."⟩ ∧
    ("Data Analyst role requiring SQL, Tableau, Python for data analysis, statistical modeling, and experience with data warehousing concepts." : String).length ≤ 150 ∧
    rag_search "J456" =
      "Data Analyst: " ++ "Data Analyst role requiring SQL, Tableau, Python for data analysis, statistical modeling, and experience with data warehousing concepts." ++ "..." := by
  refine ⟨by decide, by decide, by decide⟩

/-- Claim C2 (amended): for every query that is a known job id, `rag_search`
returns the title, a separator, the first 150 characters of the description,
and the marker appended unconditionally; a description of 150 characters or
fewer therefore appears unmodified but still carries the appended marker. -/
theorem c2_truncation (q : String) (jp : JobPosting)
    (h : JOB_DESCRIPTIONS.lookup q = some jp) :
    rag_search q = jp.title ++ ": " ++ strTake jp.description 150 ++ "..." ∧
    (jp.description.length ≤ 150 →
      rag_search q = jp.title ++ ": " ++ jp.description ++ "...") := by
  constructor
  · simp [rag_search, h]
  · intro hlen
    simp [rag_search, h, strTake_of_le jp.description 150 hlen]

/-- Claim C2, witness: the amended statement at job id J456, whose
description is short enough that it appears unmodified before the marker. -/
theorem c2_witness :
    rag_search "J456" =
      "Data Analyst" ++ ": " ++ "Data Analyst role requiring SQL, Tableau, Python for data analysis, statistical modeling, and experience with data warehousing concepts." ++ "..." :=
  (c2_truncation "J456"
      ⟨"Data Analyst", "Data Analyst role requiring SQL, Tableau, Python for data analysis, statistical modeling, and experience with data warehousing concepts."⟩
      (by decide)).2 (by decide)

/-! ### Claim C3 -/

/-- Claim C3: the router returns the assessment route exactly when the
status lowercases to the literal, and its only two outcomes are the
assessment route and the interview route; it is a total function. -/
theorem c3_router (st : AgentState) :
    (router_agent st = "assessment" ↔ strLower st.status = "assessment") ∧
    (router_agent st = "assessment" ∨ router_agent st = "interview") := by
  by_cases h : strLower st.status = "assessment"
  · refine ⟨?_, Or.inl ?_⟩ <;> simp [router_agent, h]
  · refine ⟨?_, Or.inr ?_⟩ <;> simp [router_agent, h]

/-- Claim C3, witness: concrete routings derived from the router theorem,
including the uppercase status routed to the interview handler. -/
theorem c3_witness :
    router_agent ⟨"J1", "n", "e", "INTERVIEW", "t", "d", "", Metadata.empty⟩ = "interview" ∧
    router_agent ⟨"J1", "n", "e", "aSSessMent", "t", "d", "", Metadata.empty⟩ = "assessment" := by
  have h1 := c3_router ⟨"J1", "n", "e", "INTERVIEW", "t", "d", "", Metadata.empty⟩
  have h2 := c3_router ⟨"J1", "n", "e", "aSSessMent", "t", "d", "", Metadata.empty⟩
  refine ⟨?_, h2.1.mpr (by decide)⟩
  rcases h1.2 with h | h
  · exact absurd (h1.1.mp h) (by decide)
  · exact h

/-! ### Claim C4 -/

/-- Stripping the empty string yields the empty string (one step of each
whitespace-scanning loop, via their equation lemmas). -/
theorem trim_empty : String.trim "" = "" := by
  simp [String.trim, Substring.trim, String.toSubstring, Substring.toString,
        Substring.takeWhileAux, Substring.takeRightWhileAux, String.extract]

/-- Claim C4, counterexample: with the flag set, a truthy credential and a
successful external call whose reply is the empty string, the reply is
stripped and returned as-is, so `generate_prep_tip` returns the empty
string: the unconditional non-emptiness of the original claim fails on the
external-success path. -/
theorem c4_counterexample :
    externalTier true (some "sk-key") (some "") = some "" ∧
    generate_prep_tip "Python Developer role" true (some "sk-key") (some "") = "" := by
  have htrim : String.trim "" = "" := trim_empty
  constructor
  · simp [externalTier, envTruthy, htrim]
  · simp [generate_prep_tip, externalTier, envTruthy, htrim]

/-- Claim C4 (amended): `generate_prep_tip` is a total function, and
whenever the external tier yields nothing (flag unset, credential absent
or falsy, or the call raised), it returns the keyword-tier result, which
is a non-empty string; in particular no external failure propagates, and
with no keyword match the fixed generic message is returned. When the
external tier succeeds its stripped reply is returned as-is, which is
empty exactly when the reply strips to nothing. -/
theorem c4_never_fails (jd : String) (uc : Bool) (key ext : Option String)
    (h : externalTier uc key ext = none) :
    generate_prep_tip jd uc key ext = keywordTier jd ∧
    generate_prep_tip jd uc key ext ≠ "" ∧
    (keywords.find? (fun k => strContains (strLower jd) k) = none →
      generate_prep_tip jd uc key ext =
        "Study the job requirements and prepare concrete examples from your experience.") := by
  have hg : generate_prep_tip jd uc key ext = keywordTier jd := by
    simp [generate_prep_tip, h]
  refine ⟨hg, ?_, ?_⟩
  · rw [hg]
    rcases keywordTier_cases jd with hc | ⟨k, hk, hc⟩
    · rw [hc]; decide
    · rw [hc]
      simp only [keywords, List.mem_cons, List.not_mem_nil, or_false] at hk
      rcases hk with rfl | rfl | rfl | rfl | rfl <;> decide
  · intro hf
    rw [hg, keywordTier, hf]

/-- Claim C4, witness: a description matching no keyword, with the flag
set, a credential configured, and the external call raising; the generic
message is still produced and is non-empty. -/
theorem c4_witness :
    generate_prep_tip "Managerial role requiring leadership." true (some "sk-test") none =
      keywordTier "Managerial role requiring leadership." ∧
    generate_prep_tip "Managerial role requiring leadership." true (some "sk-test") none ≠ "" ∧
    (keywords.find?
        (fun k => strContains (strLower "Managerial role requiring leadership.") k) = none →
      generate_prep_tip "Managerial role requiring leadership." true (some "sk-test") none =
        "Study the job requirements and prepare concrete examples from your experience.") :=
  c4_never_fails "Managerial role requiring leadership." true (some "sk-test") none (by decide)

/-! ### Claim C5 -/

/-- Claim C5: for a job id absent from the catalog the dispatcher resolves
the fixed generic title and description, and for every job id the request
context carries a non-empty title and description. -/
theorem c5_generic_defaults (n e s jid : String) :
    (JOB_DESCRIPTIONS.lookup jid = none →
      (initState n e s jid).job_title = "Software Engineer" ∧
      (initState n e s jid).job_description =
        "Software engineering role requiring technical expertise.") ∧
    (initState n e s jid).job_title ≠ "" ∧
    (initState n e s jid).job_description ≠ "" := by
  by_cases h1 : jid = "J123"
  · subst h1
    refine ⟨fun h => absurd h (by decide), ?_, ?_⟩ <;> · simp only [initState]; decide
  by_cases h2 : jid = "J456"
  · subst h2
    refine ⟨fun h => absurd h (by decide), ?_, ?_⟩ <;> · simp only [initState]; decide
  by_cases h3 : jid = "J789"
  · subst h3
    refine ⟨fun h => absurd h (by decide), ?_, ?_⟩ <;> · simp only [initState]; decide
  by_cases h4 : jid = "J101"
  · subst h4
    refine ⟨fun h => absurd h (by decide), ?_, ?_⟩ <;> · simp only [initState]; decide
  have hl : JOB_DESCRIPTIONS.lookup jid = none := by
    have b1 : (jid == "J123") = false := beq_eq_false_iff_ne.mpr h1
    have b2 : (jid == "J456") = false := beq_eq_false_iff_ne.mpr h2
    have b3 : (jid == "J789") = false := beq_eq_false_iff_ne.mpr h3
    have b4 : (jid == "J101") = false := beq_eq_false_iff_ne.mpr h4
    simp [JOB_DESCRIPTIONS, List.lookup, b1, b2, b3, b4]
  refine ⟨fun _ => ?_, ?_, ?_⟩ <;>
    simp [initState, resolveJob, hl]

/-- Claim C5, witness: the generic defaults at the unknown job id used in
the spec scenarios. -/
theorem c5_witness :
    (initState "Jordan" "j@example.com" "Interview" "UNKNOWN").job_title =
      "Software Engineer" ∧
    (initState "Jordan" "j@example.com" "Interview" "UNKNOWN").job_description =
      "Software engineering role requiring technical expertise." ∧
    (initState "Jordan" "j@example.com" "Interview" "UNKNOWN").job_title ≠ "" :=
  ⟨((c5_generic_defaults "Jordan" "j@example.com" "Interview" "UNKNOWN").1 (by decide)).1,
   ((c5_generic_defaults "Jordan" "j@example.com" "Interview" "UNKNOWN").1 (by decide)).2,
   (c5_generic_defaults "Jordan" "j@example.com" "Interview" "UNKNOWN").2.1⟩

/-! ### Claim C6 -/

/-- Claim C6: the assessment handler is total on every request context:
the message is the template interpolating candidate name, job title,
resolved link and the constant 60-minute limit; the metadata records the
handler, the link used and the timestamp; and the link resolution returns
the mapped link when the title is mapped and the fixed generic link
otherwise. -/
theorem c6_assessment (st : AgentState) (now : String) :
    (assessment_agent st now).output_message =
      assessmentMessage st.candidate_name st.job_title (get_test_link st.job_title) ∧
    (assessment_agent st now).metadata =
      Metadata.assessment (get_test_link st.job_title) now ∧
    (∀ url, TEST_LINKS.lookup st.job_title = some url →
      get_test_link st.job_title = url) ∧
    (TEST_LINKS.lookup st.job_title = none →
      get_test_link st.job_title = "https://assess.example.com/general") := by
  refine ⟨rfl, rfl, ?_, ?_⟩
  · intro url hurl
    rw [get_test_link, hurl]
    rfl
  · intro hnone
    rw [get_test_link, hnone]
    rfl

/-- Claim C6, witness: link resolution at a mapped title and at the generic
default title, derived from the assessment handler theorem at concrete
states. -/
theorem c6_witness :
    get_test_link "Python Developer" = "https://assess.example.com/python" ∧
    get_test_link "Software Engineer" = "https://assess.example.com/general" := by
  have h1 := c6_assessment
    ⟨"J123", "Sarah Johnson", "sarah.j@email.com", "Assessment",
     "Python Developer", "d", "", Metadata.empty⟩ "2024-12-01T10:00:00"
  have h2 := c6_assessment
    ⟨"ZZZ", "Sam", "sam@example.com", "Assessment",
     "Software Engineer", "d", "", Metadata.empty⟩ "2024-12-01T10:00:00"
  exact ⟨h1.2.2.1 "https://assess.example.com/python" (by decide),
         h2.2.2.2 (by decide)⟩

/-! ### Claim C7 -/

/-- Claim C7: when the external tier is not taken (flag unset or credential
not configured), tip generation depends only on the job description: two
calls with the same description agree whatever the flag, credential and
external outcome of each call were. -/
theorem c7_deterministic (jd : String) (uc1 uc2 : Bool) (k1 k2 e1 e2 : Option String)
    (h1 : (uc1 && envTruthy k1) = false) (h2 : (uc2 && envTruthy k2) = false) :
    generate_prep_tip jd uc1 k1 e1 = generate_prep_tip jd uc2 k2 e2 := by
  simp [generate_prep_tip, externalTier, h1, h2]

/-- Claim C7, witness: one call with the flag unset and one call with the
flag set but an empty (falsy) credential agree on the same description. -/
theorem c7_witness :
    generate_prep_tip "Python role" false none (some "reply a") =
      generate_prep_tip "Python role" true (some "") none :=
  c7_deterministic "Python role" false true none (some "") (some "reply a") none
    (by decide) (by decide)

/-! ### Claim C8 -/

/-- Claim C8: both handlers only write the output message and the metadata:
job id, candidate name, candidate email, status, job title and job
description are unchanged by the assessment agent and the interview agent. -/
theorem c8_frame (st : AgentState) (now : String) (uc : Bool) (key ext : Option String) :
    ((assessment_agent st now).job_id = st.job_id ∧
     (assessment_agent st now).candidate_name = st.candidate_name ∧
     (assessment_agent st now).candidate_email = st.candidate_email ∧
     (assessment_agent st now).status = st.status ∧
     (assessment_agent st now).job_title = st.job_title ∧
     (assessment_agent st now).job_description = st.job_description) ∧
    ((interview_agent st uc key ext now).job_id = st.job_id ∧
     (interview_agent st uc key ext now).candidate_name = st.candidate_name ∧
     (interview_agent st uc key ext now).candidate_email = st.candidate_email ∧
     (interview_agent st uc key ext now).status = st.status ∧
     (interview_agent st uc key ext now).job_title = st.job_title ∧
     (interview_agent st uc key ext now).job_description = st.job_description) :=
  ⟨⟨rfl, rfl, rfl, rfl, rfl, rfl⟩, ⟨rfl, rfl, rfl, rfl, rfl, rfl⟩⟩

/-- Claim C8, witness: the frame condition at one concrete state, one
timestamp and one tip-generation configuration. -/
theorem c8_witness :
    ((assessment_agent ⟨"J123", "Ana", "a@b.c", "Assessment", "Python Developer",
        "desc", "", Metadata.empty⟩ "ts").job_id = "J123" ∧
     (assessment_agent ⟨"J123", "Ana", "a@b.c", "Assessment", "Python Developer",
        "desc", "", Metadata.empty⟩ "ts").candidate_name = "Ana") ∧
    (interview_agent ⟨"J123", "Ana", "a@b.c", "Assessment", "Python Developer",
        "desc", "", Metadata.empty⟩ false none none "ts").status = "Assessment" := by
  have h := c8_frame ⟨"J123", "Ana", "a@b.c", "Assessment", "Python Developer",
    "desc", "", Metadata.empty⟩ "ts" false none none
  exact ⟨⟨h.1.1, h.1.2.1⟩, h.2.2.2.2.1⟩

/-! ### Claim C9 -/

/-- Claim C9: every keyword of the fixed scan list has an entry in the tip
corpus, so the missing-entry branch of the keyword tier is unreachable:
no job description can make it return the fixed missing-entry message. -/
theorem c9_corpus_covers_keywords :
    (∀ k, k ∈ keywords → (INTERVIEW_TIPS_DB.lookup k).isSome = true) ∧
    (∀ jd, keywordTier jd ≠ "Review the core concepts for this role.") := by
  constructor
  · intro k hk
    simp only [keywords, List.mem_cons, List.not_mem_nil, or_false] at hk
    rcases hk with rfl | rfl | rfl | rfl | rfl <;> decide
  · intro jd
    rcases keywordTier_cases jd with hc | ⟨k, hk, hc⟩
    · rw [hc]; decide
    · rw [hc]
      simp only [keywords, List.mem_cons, List.not_mem_nil, or_false] at hk
      rcases hk with rfl | rfl | rfl | rfl | rfl <;> decide

/-- Claim C9, witness: the corpus entry for sql exists, and on a concrete
description with no matching keyword the tier still avoids the
missing-entry message. -/
theorem c9_witness :
    (INTERVIEW_TIPS_DB.lookup "sql").isSome = true ∧
    keywordTier "A role using no listed technology" ≠
      "Review the core concepts for this role." :=
  ⟨c9_corpus_covers_keywords.1 "sql" (by decide),
   c9_corpus_covers_keywords.2 "A role using no listed technology"⟩

/-! ### Claim C10 -/

/-- Claim C10: the generic default title has no entry in the link map, so
for every job id absent from the catalog and every status that routes to
the assessment handler, the dispatched message contains the fixed generic
assessment link. -/
theorem c10_generic_link (name email status jid : String) (uc : Bool)
    (key ext : Option String) (now : String)
    (hjob : JOB_DESCRIPTIONS.lookup jid = none)
    (hstatus : strLower status = "assessment") :
    TEST_LINKS.lookup "Software Engineer" = none ∧
    strContains (orchestrate name email status jid uc key ext now)
      "https://assess.example.com/general" = true := by
  refine ⟨by decide, ?_⟩
  have hlink : get_test_link "Software Engineer" = "https://assess.example.com/general" := by
    decide
  have hmsg : orchestrate name email status jid uc key ext now =
      assessmentMessage name "Software Engineer" "https://assess.example.com/general" := by
    simp [orchestrate, initState, resolveJob, hjob, router_agent, hstatus,
          assessment_agent, hlink]
  rw [hmsg]
  simp only [assessmentMessage, strContains, String.data_append, List.append_assoc]
  apply containsSub_append_right
  apply containsSub_append_right
  apply containsSub_append_right
  apply containsSub_append_right
  apply containsSub_append_right
  decide

/-- Claim C10, witness: the unknown job id of the demo script dispatched
with the assessment status yields a message containing the generic link. -/
theorem c10_witness :
    TEST_LINKS.lookup "Software Engineer" = none ∧
    strContains (orchestrate "Arushi Srivastava" "aru@bits.com" "Assessment" "F0188"
        false none none "2024-12-01T10:00:00")
      "https://assess.example.com/general" = true :=
  c10_generic_link "Arushi Srivastava" "aru@bits.com" "Assessment" "F0188"
    false none none "2024-12-01T10:00:00" (by decide) (by decide)

end RecruitEM
